import Mathlib

/-!
Verification of the adaptive workload scaler (src/Adaptiveworkload.py).

Shallow embedding: timestamps are rationals (seconds), the request log is a
list of timestamps in arrival order, the cooldown state is an optional
timestamp (LAST_SCALING_TIME).  External fleet-controller calls
(describe_instances / start_instances / stop_instances) are modelled as
inputs: each tier reconciliation receives the describe result (instance
state string or a raised error) and the action result (unit or a raised
error), together with the clock readings the Python code takes via
datetime.now() at the cooldown check and at the LAST_SCALING_TIME update.
-/

namespace AdaptiveWorkload

/-- Configuration constant THRESHOLD_T1 (line 10 of the source). -/
def THRESHOLD_T1 : ℚ := 5

/-- Configuration constant THRESHOLD_T2 (line 11). -/
def THRESHOLD_T2 : ℚ := 10

/-- Configuration constant HYSTERESIS (line 12). -/
def HYSTERESIS : ℚ := 2

/-- Configuration constant COOLDOWN_PERIOD, seconds (line 13). -/
def COOLDOWN_PERIOD : ℚ := 10

/-- Configuration constant REQUEST_LOG_WINDOW, seconds (line 14). -/
def REQUEST_LOG_WINDOW : ℚ := 60

/-- The pruning step of calculate_arrival_rate (lines 83-86): keep exactly
the entries whose age relative to now is at most the window length. -/
def prune (now : ℚ) (log : List ℚ) : List ℚ :=
  log.filter (fun entry => decide (now - entry ≤ REQUEST_LOG_WINDOW))

/-- calculate_arrival_rate (lines 77-92): prune, then return 0 when fewer
than 2 entries remain; otherwise divide the retained count by the span
between first and last retained entries, guarding span = 0.  Returns the
rate together with the pruned log (the Python function mutates the global
REQUEST_LOG). -/
def calculate_arrival_rate (now : ℚ) (log : List ℚ) : ℚ × List ℚ :=
  if (prune now log).length < 2 then (0, prune now log)
  else
    (if 0 < (prune now log).getLastI - (prune now log).headI then
        ((prune now log).length : ℚ) /
          ((prune now log).getLastI - (prune now log).headI)
      else 0,
     prune now log)

/-- choose_target_group (lines 94-101). -/
def choose_target_group (arrival_rate : ℚ) : String :=
  if arrival_rate ≤ THRESHOLD_T1 - HYSTERESIS then "small"
  else if arrival_rate ≤ THRESHOLD_T2 - HYSTERESIS then "medium"
  else "large"

/-- A start or stop operation passed to manage_instances (lines 43, 64-69). -/
inductive Op
  | start
  | stop
deriving DecidableEq, Repr

/-- The informational outcome of one tier reconciliation: skipped because
the fleet is already in the desired state (lines 53-56), skipped because the
cooldown is active (lines 59-61), or the operation was performed
(lines 64-71). -/
inductive Outcome
  | skippedDesired
  | skippedCooldown
  | performed (op : Op)
deriving DecidableEq, Repr

/-- Whether an outcome is an actually performed start/stop transition. -/
def Outcome.isPerformed : Outcome → Bool
  | .performed _ => true
  | _ => false

/-- The external world seen by one manage_instances call: the result of the
describe_instances call (the instance state string, or a raised error), the
result of the start/stop call if one is issued (unit, or a raised error),
and the two datetime.now() readings the code takes at the cooldown check
(line 59) and at the LAST_SCALING_TIME update (line 71). -/
structure TierEnv where
  describeRes : Except String String
  actionRes : Except String Unit
  tCheck : ℚ
  tCommit : ℚ
deriving Repr

/-- The cooldown guard of line 59: LAST_SCALING_TIME is set and less than
COOLDOWN_PERIOD seconds old. -/
def cooldown_active (last : Option ℚ) (now : ℚ) : Bool :=
  match last with
  | none => false
  | some t => decide (now - t < COOLDOWN_PERIOD)

/-- manage_instances (lines 43-75).  Returns the reconciliation result (an
outcome, or the propagated error), the new LAST_SCALING_TIME, and the list
of start/stop calls issued to the fleet controller. -/
def manage_instances (op : Op) (env : TierEnv) (last : Option ℚ) :
    Except String Outcome × Option ℚ × List Op :=
  match env.describeRes with
  | .error e => (.error e, last, [])
  | .ok current_state =>
    if (op = Op.start ∧ current_state = "running") ∨
        (op = Op.stop ∧ current_state = "stopped") then
      (.ok .skippedDesired, last, [])
    else if cooldown_active last env.tCheck then
      (.ok .skippedCooldown, last, [])
    else
      match env.actionRes with
      | .error e => (.error e, last, [op])
      | .ok _ => (.ok (.performed op), some env.tCommit, [op])

/-- The result of one decision cycle (the loop of lines 112-116): the first
propagated error if any, the final LAST_SCALING_TIME, the start/stop calls
issued (tier name and operation, in order), and the recorded per-tier
outcomes. -/
structure CycleResult where
  err : Option String
  last : Option ℚ
  calls : List (String × Op)
  outcomes : List (String × Outcome)
deriving Repr

/-- The per-tier loop of handle_request (lines 112-116): each configured
tier is reconciled in order, with 'start' for the target group and 'stop'
for every other group; a raised error aborts the loop and propagates. -/
def runCycle (target : String) (envs : List (String × TierEnv))
    (last : Option ℚ) : CycleResult :=
  match envs with
  | [] => ⟨none, last, [], []⟩
  | (name, env) :: rest =>
    match manage_instances (if name = target then Op.start else Op.stop)
        env last with
    | (.error e, l2, cs) => ⟨some e, l2, cs.map (fun c => (name, c)), []⟩
    | (.ok oc, l2, cs) =>
      let r := runCycle target rest l2
      ⟨r.err, r.last, cs.map (fun c => (name, c)) ++ r.calls,
        (name, oc) :: r.outcomes⟩

/-- The result of one handle_request call (lines 103-122): the computed
arrival rate, the chosen target group, the pruned request log, and the
cycle result. -/
structure StepResult where
  rate : ℚ
  target : String
  log : List ℚ
  cycle : CycleResult

/-- handle_request (lines 103-122): append the current timestamp to the
request log, compute the arrival rate (which prunes the log), choose the
target group, and reconcile every tier. -/
def handle_request (now : ℚ) (envs : List (String × TierEnv))
    (log : List ℚ) (last : Option ℚ) : StepResult :=
  ⟨(calculate_arrival_rate now (log ++ [now])).1,
   choose_target_group (calculate_arrival_rate now (log ++ [now])).1,
   (calculate_arrival_rate now (log ++ [now])).2,
   runCycle (choose_target_group (calculate_arrival_rate now (log ++ [now])).1)
     envs last⟩

/-- The active-group collection loop of get_metrics (lines 131-139): a tier
whose describe call succeeds with state "running" is appended; a tier whose
describe call raises is logged and skipped. -/
def get_metrics_active : List (String × Except String String) → List String
  | [] => []
  | (group, res) :: rest =>
    match res with
    | .ok st => if st = "running" then group :: get_metrics_active rest
                else get_metrics_active rest
    | .error _ => get_metrics_active rest

/-- Number of performed transitions recorded for a given tier. -/
def performedFor (tier : String) (outs : List (String × Outcome)) : ℕ :=
  (outs.filter (fun p => p.1 == tier && p.2.isPerformed)).length

/-- Three tiers all observed stopped, with succeeding fleet calls, clock
readings at time τ. -/
def okStoppedEnvs (τ : ℚ) : List (String × TierEnv) :=
  [("small", ⟨Except.ok "stopped", Except.ok (), τ, τ⟩),
   ("medium", ⟨Except.ok "stopped", Except.ok (), τ, τ⟩),
   ("large", ⟨Except.ok "stopped", Except.ok (), τ, τ⟩)]

/-- Three handle_request calls in sequence from an empty request log and an
unset LAST_SCALING_TIME, threading the request log and the cooldown state. -/
def trace3 (t1 t2 t3 : ℚ) (eA eB eC : List (String × TierEnv)) :
    StepResult × StepResult × StepResult :=
  let s1 := handle_request t1 eA [] none
  let s2 := handle_request t2 eB s1.log s1.cycle.last
  let s3 := handle_request t3 eC s2.log s2.cycle.last
  (s1, s2, s3)

/-- An environment whose fleet-controller calls all succeed. -/
def okEnv (env : TierEnv) : Prop :=
  (∃ s, env.describeRes = Except.ok s) ∧ env.actionRes = Except.ok ()

/-- An outcome acceptable for a non-target tier: a performed stop, or one
of the two informational skips. -/
def stopOrSkip (oc : Outcome) : Prop :=
  oc = Outcome.skippedDesired ∨ oc = Outcome.skippedCooldown ∨
    oc = Outcome.performed Op.stop

end AdaptiveWorkload

namespace AdaptiveWorkload

/-- Claim C2: target selection is a pure total function of the rate:
small for rate ≤ T1 − H, medium for T1 − H < rate ≤ T2 − H, large
otherwise; concrete values with T1 = 5, T2 = 10, H = 2. -/
theorem claim_C2 :
    (∀ r : ℚ,
      (r ≤ THRESHOLD_T1 - HYSTERESIS → choose_target_group r = "small") ∧
      (THRESHOLD_T1 - HYSTERESIS < r → r ≤ THRESHOLD_T2 - HYSTERESIS →
        choose_target_group r = "medium") ∧
      (THRESHOLD_T2 - HYSTERESIS < r → choose_target_group r = "large")) ∧
    choose_target_group 0 = "small" ∧
    choose_target_group 3 = "small" ∧
    choose_target_group (31/10) = "medium" ∧
    choose_target_group 8 = "medium" ∧
    choose_target_group (81/10) = "large" ∧
    choose_target_group 100 = "large" := by
  constructor
  · intro r
    refine ⟨fun h => ?_, fun h1 h2 => ?_, fun h => ?_⟩
    · simp [choose_target_group, h]
    · rw [choose_target_group, if_neg (not_le.mpr h1), if_pos h2]
    · rw [choose_target_group, if_neg (not_le.mpr (lt_trans (by norm_num [THRESHOLD_T1, THRESHOLD_T2, HYSTERESIS]) h)),
        if_neg (not_le.mpr h)]
  · norm_num [choose_target_group, THRESHOLD_T1, THRESHOLD_T2, HYSTERESIS]

/-- Witness for claim C2 at concrete rates, one per branch. -/
theorem claim_C2_witness :
    choose_target_group 1 = "small" ∧
    choose_target_group 4 = "medium" ∧
    choose_target_group 9 = "large" :=
  ⟨(claim_C2.1 1).1 (by norm_num [THRESHOLD_T1, HYSTERESIS]),
   (claim_C2.1 4).2.1 (by norm_num [THRESHOLD_T1, HYSTERESIS])
     (by norm_num [THRESHOLD_T2, HYSTERESIS]),
   (claim_C2.1 9).2.2 (by norm_num [THRESHOLD_T2, HYSTERESIS])⟩

/-- Claim C7: the rate estimator is total and never divides by zero:
fewer than 2 retained entries gives 0, and a zero span gives 0. -/
theorem claim_C7 (now : ℚ) (log : List ℚ) :
    ((prune now log).length < 2 → (calculate_arrival_rate now log).1 = 0) ∧
    ((prune now log).getLastI - (prune now log).headI = 0 →
      (calculate_arrival_rate now log).1 = 0) := by
  unfold calculate_arrival_rate
  by_cases h : (prune now log).length < 2
  · simp [h]
  · refine ⟨fun hc => absurd hc h, fun hs => ?_⟩
    simp [h, hs]

/-- Witness for claim C7: an empty window and a zero-span window both
give rate 0. -/
theorem claim_C7_witness :
    (calculate_arrival_rate 0 []).1 = 0 ∧
    (calculate_arrival_rate 0 [0, 0]).1 = 0 :=
  ⟨(claim_C7 0 []).1 (by simp [prune]),
   (claim_C7 0 [0, 0]).2
     (by norm_num [prune, List.filter, REQUEST_LOG_WINDOW, List.getLastI])⟩

/-- Claim C1 fails on the code: with two retained entries at times 0 and 1
(now = 1), the code returns 2 / 1 = 2, not (2 − 1) / 1 = 1: the source
divides the full retained count by the span, not count − 1. -/
theorem claim_C1_counterexample :
    ¬((calculate_arrival_rate 1 [0, 1]).1 =
      (((prune 1 [0, 1]).length : ℚ) - 1) /
        ((prune 1 [0, 1]).getLastI - (prune 1 [0, 1]).headI)) := by
  norm_num [calculate_arrival_rate, prune, List.filter, REQUEST_LOG_WINDOW,
    List.getLastI]

/-- Claim C1 (amended): for a window retaining n ≥ 2 entries with strictly
positive span, the rate is n / span (the full retained count divided by the
span, not n − 1). -/
theorem claim_C1 (now : ℚ) (log : List ℚ)
    (h2 : 2 ≤ (prune now log).length)
    (hspan : 0 < (prune now log).getLastI - (prune now log).headI) :
    (calculate_arrival_rate now log).1 =
      ((prune now log).length : ℚ) /
        ((prune now log).getLastI - (prune now log).headI) := by
  unfold calculate_arrival_rate
  rw [if_neg (Nat.not_lt.mpr h2)]
  simp [hspan]

/-- Witness for the amended claim C1: two entries spanning 1 second give
rate 2. -/
theorem claim_C1_witness :
    (calculate_arrival_rate 1 [0, 1]).1 =
      ((prune 1 [0, 1]).length : ℚ) /
        ((prune 1 [0, 1]).getLastI - (prune 1 [0, 1]).headI) :=
  claim_C1 1 [0, 1]
    (by norm_num [prune, List.filter, REQUEST_LOG_WINDOW])
    (by norm_num [prune, List.filter, REQUEST_LOG_WINDOW, List.getLastI])

/-- Pruning a time-ordered log removes a prefix: the retained entries are a
suffix of the original list and every dropped entry is strictly older than
the window. -/
theorem prune_suffix (now : ℚ) :
    ∀ log : List ℚ, log.Sorted (· ≤ ·) →
      ∃ dropped, log = dropped ++ prune now log ∧
        ∀ x ∈ dropped, REQUEST_LOG_WINDOW < now - x := by
  intro log
  induction log with
  | nil => exact fun _ => ⟨[], rfl, by simp⟩
  | cons a l ih =>
    intro hs
    by_cases ha : now - a ≤ REQUEST_LOG_WINDOW
    · refine ⟨[], ?_, by simp⟩
      have hall : ∀ x ∈ a :: l, decide (now - x ≤ REQUEST_LOG_WINDOW) = true := by
        intro x hx
        rcases List.mem_cons.mp hx with rfl | hx
        · simpa using ha
        · have hax := (List.sorted_cons.mp hs).1 x hx
          simp only [decide_eq_true_eq]
          linarith
      rw [prune, List.filter_eq_self.mpr hall]
      simp
    · obtain ⟨dropped, hd, hold⟩ := ih (List.sorted_cons.mp hs).2
      refine ⟨a :: dropped, ?_, ?_⟩
      · have hc : (decide (now - a ≤ REQUEST_LOG_WINDOW)) = false := by
          rw [decide_eq_false_iff_not]; exact ha
        have hp : prune now (a :: l) = prune now l := by
          simp only [prune, List.filter_cons, hc, Bool.false_eq_true, if_false]
        rw [hp, List.cons_append, ← hd]
      · intro x hx
        rcases List.mem_cons.mp hx with rfl | hx
        · have hlt := not_le.mp ha
          linarith
        · exact hold x hx

/-- Claim C5: pruning keeps exactly the entries of age at most the window
length (never more, never fewer), preserves order (the result is a sublist),
and on a time-ordered log removes only from the oldest end (the retained
entries are a suffix). -/
theorem claim_C5 (now : ℚ) (log : List ℚ) :
    (∀ x ∈ prune now log, now - x ≤ REQUEST_LOG_WINDOW) ∧
    (∀ x ∈ log, (x ∈ prune now log ↔ now - x ≤ REQUEST_LOG_WINDOW)) ∧
    (prune now log).Sublist log ∧
    (log.Sorted (· ≤ ·) →
      ∃ dropped, log = dropped ++ prune now log ∧
        ∀ x ∈ dropped, REQUEST_LOG_WINDOW < now - x) := by
  refine ⟨?_, ?_, ?_, prune_suffix now log⟩
  · intro x hx
    have := (List.mem_filter.mp hx).2
    simpa using this
  · intro x hx
    constructor
    · intro hp
      have := (List.mem_filter.mp hp).2
      simpa using this
    · intro hage
      exact List.mem_filter.mpr ⟨hx, by simpa using hage⟩
  · exact List.filter_sublist log

/-- Witness for claim C5 with now = 100 and log = [0, 50, 100]: the entry
at 50 is retained with age ≤ 60, and the entry at 0 is the dropped prefix. -/
theorem claim_C5_witness :
    (100 - (50 : ℚ) ≤ REQUEST_LOG_WINDOW) ∧
    ((50 : ℚ) ∈ prune 100 [0, 50, 100]) ∧
    (∃ dropped, ([0, 50, 100] : List ℚ) = dropped ++ prune 100 [0, 50, 100] ∧
      ∀ x ∈ dropped, REQUEST_LOG_WINDOW < 100 - x) := by
  have hmem : (50 : ℚ) ∈ prune 100 [0, 50, 100] := by
    norm_num [prune, List.filter, REQUEST_LOG_WINDOW]
  refine ⟨(claim_C5 100 [0, 50, 100]).1 50 hmem, hmem,
    (claim_C5 100 [0, 50, 100]).2.2.2 ?_⟩
  norm_num [List.sorted_cons]

/-- Claim C4: a tier already in its desired observed state (start requested
while running, or stop requested while stopped) is a no-op: no fleet call
is issued and LAST_SCALING_TIME is unchanged. -/
theorem claim_C4 (op : Op) (st : String) (ar : Except String Unit)
    (t1 t2 : ℚ) (last : Option ℚ)
    (h : (op = Op.start ∧ st = "running") ∨ (op = Op.stop ∧ st = "stopped")) :
    manage_instances op ⟨Except.ok st, ar, t1, t2⟩ last =
      (Except.ok Outcome.skippedDesired, last, []) := by
  simp [manage_instances, h]

/-- Witness for claim C4: starting a tier already observed running. -/
theorem claim_C4_witness :
    manage_instances Op.start ⟨Except.ok "running", Except.ok (), 0, 0⟩ none =
      (Except.ok Outcome.skippedDesired, none, []) :=
  claim_C4 Op.start "running" (Except.ok ()) 0 0 none (Or.inl ⟨rfl, rfl⟩)

/-- Claim C8: a reconciliation in which a fleet-controller call raises
leaves LAST_SCALING_TIME unchanged, propagates exactly the raised error,
and issues at most the single failing call (no retry). -/
theorem claim_C8 (op : Op) (env : TierEnv) (last : Option ℚ) (e : String)
    (h : (manage_instances op env last).1 = Except.error e) :
    (manage_instances op env last).2.1 = last ∧
    (env.describeRes = Except.error e ∨ env.actionRes = Except.error e) ∧
    (manage_instances op env last).2.2.length ≤ 1 := by
  obtain ⟨dr, ar, t1, t2⟩ := env
  rcases dr with e2 | st
  · simp_all [manage_instances]
  · rcases ar with e3 | u
    all_goals
      simp_all [manage_instances]
      split_ifs at h ⊢ <;> simp_all

/-- Witness for claim C8: a failing describe call propagates unchanged. -/
theorem claim_C8_witness :
    (manage_instances Op.start
        ⟨Except.error "boom", Except.ok (), 0, 0⟩ none).2.1 = none ∧
    ((⟨Except.error "boom", Except.ok (), 0, 0⟩ : TierEnv).describeRes =
        Except.error "boom" ∨
      (⟨Except.error "boom", Except.ok (), 0, 0⟩ : TierEnv).actionRes =
        Except.error "boom") ∧
    (manage_instances Op.start
        ⟨Except.error "boom", Except.ok (), 0, 0⟩ none).2.2.length ≤ 1 :=
  claim_C8 Op.start ⟨Except.error "boom", Except.ok (), 0, 0⟩ none "boom" rfl

/-- get_metrics_active distributes over list append. -/
theorem get_metrics_active_append (l1 l2 : List (String × Except String String)) :
    get_metrics_active (l1 ++ l2) =
      get_metrics_active l1 ++ get_metrics_active l2 := by
  induction l1 with
  | nil => simp [get_metrics_active]
  | cons p rest ih =>
    obtain ⟨g, res⟩ := p
    rcases res with e | st
    · simpa [get_metrics_active] using ih
    · by_cases hs : st = "running" <;> simp [get_metrics_active, hs, ih]

/-- Claim C9: a tier whose describe call raises is silently omitted from
active_groups, the remaining tiers are reported exactly as without it, and
the query never fails (the collection is a total function). -/
theorem claim_C9 (pre post : List (String × Except String String))
    (g e : String) :
    get_metrics_active (pre ++ (g, Except.error e) :: post) =
      get_metrics_active (pre ++ post) ∧
    get_metrics_active (pre ++ post) =
      get_metrics_active pre ++ get_metrics_active post := by
  refine ⟨?_, get_metrics_active_append pre post⟩
  rw [get_metrics_active_append, get_metrics_active_append]
  simp [get_metrics_active]

/-- Unfolding: the empty cycle. -/
theorem runCycle_nil (target : String) (last : Option ℚ) :
    runCycle target [] last = ⟨none, last, [], []⟩ := rfl

/-- Unfolding: a cycle whose head reconciliation raises aborts the loop. -/
theorem runCycle_cons_error {target name : String} {env : TierEnv}
    {rest : List (String × TierEnv)} {last : Option ℚ} {e : String}
    {l2 : Option ℚ} {cs : List Op}
    (h : manage_instances (if name = target then Op.start else Op.stop) env
        last = (Except.error e, l2, cs)) :
    runCycle target ((name, env) :: rest) last =
      ⟨some e, l2, cs.map (fun c => (name, c)), []⟩ := by
  simp only [runCycle, h]

/-- Unfolding: a cycle whose head reconciliation returns an outcome
continues with the head's cooldown state. -/
theorem runCycle_cons_ok {target name : String} {env : TierEnv}
    {rest : List (String × TierEnv)} {last : Option ℚ} {oc : Outcome}
    {l2 : Option ℚ} {cs : List Op}
    (h : manage_instances (if name = target then Op.start else Op.stop) env
        last = (Except.ok oc, l2, cs)) :
    runCycle target ((name, env) :: rest) last =
      ⟨(runCycle target rest l2).err, (runCycle target rest l2).last,
        cs.map (fun c => (name, c)) ++ (runCycle target rest l2).calls,
        (name, oc) :: (runCycle target rest l2).outcomes⟩ := by
  simp only [runCycle, h]

/-- A reconciliation whose describe call raises issues nothing and keeps
the cooldown state. -/
theorem manage_describe_error (op : Op) (env : TierEnv) (last : Option ℚ)
    (e : String) (hdr : env.describeRes = Except.error e) :
    manage_instances op env last = (Except.error e, last, []) := by
  simp [manage_instances, hdr]

/-- A reconciliation of a tier already in its desired state skips. -/
theorem manage_skip_desired (op : Op) (env : TierEnv) (last : Option ℚ)
    (st : String) (hdr : env.describeRes = Except.ok st)
    (hdes : (op = Op.start ∧ st = "running") ∨
      (op = Op.stop ∧ st = "stopped")) :
    manage_instances op env last = (Except.ok Outcome.skippedDesired, last, []) := by
  simp [manage_instances, hdr, hdes]

/-- A reconciliation needing a transition within the cooldown period skips
without touching the fleet or the cooldown state. -/
theorem manage_skip_cooldown (op : Op) (env : TierEnv) (t : ℚ) (st : String)
    (hdr : env.describeRes = Except.ok st)
    (hdes : ¬((op = Op.start ∧ st = "running") ∨
      (op = Op.stop ∧ st = "stopped")))
    (hcd : env.tCheck - t < COOLDOWN_PERIOD) :
    manage_instances op env (some t) =
      (Except.ok Outcome.skippedCooldown, some t, []) := by
  simp [manage_instances, hdr, hdes, cooldown_active, hcd]

/-- Once LAST_SCALING_TIME holds a timestamp within the cooldown period of
every clock reading of the remaining tiers, the rest of the cycle issues no
fleet call, performs no transition, and leaves the cooldown state as is. -/
theorem runCycle_locked (target : String) (t : ℚ) :
    ∀ envs : List (String × TierEnv),
      (∀ p ∈ envs, p.2.tCheck - t < COOLDOWN_PERIOD) →
      (runCycle target envs (some t)).calls = [] ∧
      (runCycle target envs (some t)).last = some t ∧
      ∀ q ∈ (runCycle target envs (some t)).outcomes,
        q.2.isPerformed = false := by
  intro envs
  induction envs with
  | nil => intro _; simp [runCycle_nil]
  | cons p rest ih =>
    intro hcl
    obtain ⟨name, env⟩ := p
    have henv : env.tCheck - t < COOLDOWN_PERIOD :=
      hcl (name, env) (List.mem_cons_self _ _)
    have hrest : ∀ p ∈ rest, p.2.tCheck - t < COOLDOWN_PERIOD :=
      fun p hp => hcl p (List.mem_cons_of_mem _ hp)
    obtain ⟨h1, h2, h3⟩ := ih hrest
    rcases hdr : env.describeRes with e | st
    · rw [runCycle_cons_error (manage_describe_error _ env (some t) e hdr)]
      simp
    · by_cases hdes : ((if name = target then Op.start else Op.stop) = Op.start
          ∧ st = "running") ∨
          ((if name = target then Op.start else Op.stop) = Op.stop
          ∧ st = "stopped")
      · rw [runCycle_cons_ok (manage_skip_desired _ env (some t) st hdr hdes)]
        refine ⟨by simpa using h1, by simpa using h2, ?_⟩
        intro q hq
        rcases List.mem_cons.mp hq with rfl | hq
        · rfl
        · exact h3 q hq
      · rw [runCycle_cons_ok (manage_skip_cooldown _ env t st hdr hdes henv)]
        refine ⟨by simpa using h1, by simpa using h2, ?_⟩
        intro q hq
        rcases List.mem_cons.mp hq with rfl | hq
        · rfl
        · exact h3 q hq

/-- A reconciliation needing a transition skips whenever the cooldown guard
evaluates to true, for any cooldown state. -/
theorem manage_skip_cooldown_bool (op : Op) (env : TierEnv) (last : Option ℚ)
    (st : String) (hdr : env.describeRes = Except.ok st)
    (hdes : ¬((op = Op.start ∧ st = "running") ∨
      (op = Op.stop ∧ st = "stopped")))
    (hcd : cooldown_active last env.tCheck = true) :
    manage_instances op env last =
      (Except.ok Outcome.skippedCooldown, last, []) := by
  simp [manage_instances, hdr, hdes, hcd]

/-- A reconciliation whose start/stop call raises issues that single call,
keeps the cooldown state, and propagates the error. -/
theorem manage_action_error (op : Op) (env : TierEnv) (last : Option ℚ)
    (st e : String) (hdr : env.describeRes = Except.ok st)
    (hdes : ¬((op = Op.start ∧ st = "running") ∨
      (op = Op.stop ∧ st = "stopped")))
    (hcd : cooldown_active last env.tCheck = false)
    (har : env.actionRes = Except.error e) :
    manage_instances op env last = (Except.error e, last, [op]) := by
  simp [manage_instances, hdr, hdes, hcd, har]

/-- A reconciliation whose start/stop call succeeds performs the transition
and commits the cooldown timestamp. -/
theorem manage_performed (op : Op) (env : TierEnv) (last : Option ℚ)
    (st : String) (hdr : env.describeRes = Except.ok st)
    (hdes : ¬((op = Op.start ∧ st = "running") ∨
      (op = Op.stop ∧ st = "stopped")))
    (hcd : cooldown_active last env.tCheck = false)
    (har : env.actionRes = Except.ok ()) :
    manage_instances op env last =
      (Except.ok (Outcome.performed op), some env.tCommit, [op]) := by
  simp [manage_instances, hdr, hdes, hcd, har]

/-- A decision cycle whose clock readings all lie within one cooldown
period of each other issues at most one actual fleet call. -/
theorem runCycle_calls_le_one (target : String) :
    ∀ (envs : List (String × TierEnv)) (last : Option ℚ),
      (∀ p ∈ envs, ∀ q ∈ envs, q.2.tCheck - p.2.tCommit < COOLDOWN_PERIOD) →
      (runCycle target envs last).calls.length ≤ 1 := by
  intro envs
  induction envs with
  | nil => intro last _; simp [runCycle_nil]
  | cons p rest ih =>
    intro last hcl
    obtain ⟨name, env⟩ := p
    have hrest : ∀ p ∈ rest, ∀ q ∈ rest,
        q.2.tCheck - p.2.tCommit < COOLDOWN_PERIOD :=
      fun p hp q hq => hcl p (List.mem_cons_of_mem _ hp) q
        (List.mem_cons_of_mem _ hq)
    rcases hdr : env.describeRes with e | st
    · rw [runCycle_cons_error (manage_describe_error _ env last e hdr)]
      simp
    · by_cases hdes : ((if name = target then Op.start else Op.stop) = Op.start
          ∧ st = "running") ∨
          ((if name = target then Op.start else Op.stop) = Op.stop
          ∧ st = "stopped")
      · rw [runCycle_cons_ok (manage_skip_desired _ env last st hdr hdes)]
        simpa using ih last hrest
      · rcases hcd : cooldown_active last env.tCheck with _ | _
        · rcases har : env.actionRes with e | u
          · rw [runCycle_cons_error
              (manage_action_error _ env last st e hdr hdes hcd har)]
            simp
          · rw [runCycle_cons_ok
              (manage_performed _ env last st hdr hdes hcd har)]
            have hlock := runCycle_locked target env.tCommit rest
              (fun q hq => hcl (name, env) (List.mem_cons_self _ _) q
                (List.mem_cons_of_mem _ hq))
            simp [hlock.1]
        · rw [runCycle_cons_ok
            (manage_skip_cooldown_bool _ env last st hdr hdes hcd)]
          simpa using ih last hrest

/-- A decision cycle either keeps the cooldown state and performs no
transition, or leaves it at the commit timestamp of one of its tiers. -/
theorem runCycle_last_cases (target : String) :
    ∀ (envs : List (String × TierEnv)) (last : Option ℚ),
      ((runCycle target envs last).last = last ∧
        ∀ q ∈ (runCycle target envs last).outcomes,
          q.2.isPerformed = false) ∨
      (∃ p ∈ envs, (runCycle target envs last).last = some p.2.tCommit) := by
  intro envs
  induction envs with
  | nil => intro last; left; simp [runCycle_nil]
  | cons p rest ih =>
    intro last
    obtain ⟨name, env⟩ := p
    rcases hdr : env.describeRes with e | st
    · left
      rw [runCycle_cons_error (manage_describe_error _ env last e hdr)]
      simp
    · by_cases hdes : ((if name = target then Op.start else Op.stop) = Op.start
          ∧ st = "running") ∨
          ((if name = target then Op.start else Op.stop) = Op.stop
          ∧ st = "stopped")
      · rw [runCycle_cons_ok (manage_skip_desired _ env last st hdr hdes)]
        rcases ih last with ⟨h1, h2⟩ | ⟨q, hq, hl⟩
        · left
          refine ⟨by simpa using h1, ?_⟩
          intro q hq
          rcases List.mem_cons.mp hq with rfl | hq
          · rfl
          · exact h2 q hq
        · right
          exact ⟨q, List.mem_cons_of_mem _ hq, by simpa using hl⟩
      · rcases hcd : cooldown_active last env.tCheck with _ | _
        · rcases har : env.actionRes with e | u
          · left
            rw [runCycle_cons_error
              (manage_action_error _ env last st e hdr hdes hcd har)]
            simp
          · right
            rw [runCycle_cons_ok
              (manage_performed _ env last st hdr hdes hcd har)]
            rcases ih (some env.tCommit) with ⟨h1, _⟩ | ⟨q, hq, hl⟩
            · exact ⟨(name, env), List.mem_cons_self _ _, by simpa using h1⟩
            · exact ⟨q, List.mem_cons_of_mem _ hq, by simpa using hl⟩
        · rw [runCycle_cons_ok
            (manage_skip_cooldown_bool _ env last st hdr hdes hcd)]
          rcases ih last with ⟨h1, h2⟩ | ⟨q, hq, hl⟩
          · left
            refine ⟨by simpa using h1, ?_⟩
            intro q hq
            rcases List.mem_cons.mp hq with rfl | hq
            · rfl
            · exact h2 q hq
          · right
            exact ⟨q, List.mem_cons_of_mem _ hq, by simpa using hl⟩

/-- A cycle that records no performed outcome performs no transition for
any tier. -/
theorem performedFor_eq_zero (tier : String) (outs : List (String × Outcome))
    (h : ∀ q ∈ outs, q.2.isPerformed = false) : performedFor tier outs = 0 := by
  rw [performedFor, List.length_eq_zero, List.filter_eq_nil_iff]
  intro q hq
  simp [h q hq]

/-- Unfolding: the transition count over a cons of outcomes. -/
theorem performedFor_cons (tier name : String) (oc : Outcome)
    (outs : List (String × Outcome)) :
    performedFor tier ((name, oc) :: outs) =
      (if name = tier ∧ oc.isPerformed = true then 1 else 0) +
        performedFor tier outs := by
  by_cases h : name = tier ∧ oc.isPerformed = true
  · obtain ⟨h1, h2⟩ := h
    subst h1
    simp [performedFor, List.filter_cons, h2, Nat.add_comm]
  · rw [if_neg h]
    have hb : (name == tier && oc.isPerformed) = false := by
      rcases Bool.eq_false_or_eq_true (name == tier && oc.isPerformed)
        with ht | hf
      · have hand := (Bool.and_eq_true _ _).mp ht
        exact absurd ⟨beq_iff_eq.mp hand.1, hand.2⟩ h
      · exact hf
    simp [performedFor, List.filter_cons, hb]

/-- Each cycle performs at most as many transitions for a tier as that tier
has entries in the cycle's configuration. -/
theorem performedFor_le_count (tier target : String) :
    ∀ (envs : List (String × TierEnv)) (last : Option ℚ),
      performedFor tier (runCycle target envs last).outcomes ≤
        (envs.map Prod.fst).count tier := by
  intro envs
  induction envs with
  | nil => intro last; simp [runCycle_nil, performedFor]
  | cons p rest ih =>
    intro last
    obtain ⟨name, env⟩ := p
    rcases hm : manage_instances (if name = target then Op.start else Op.stop)
        env last with ⟨res, l2, cs⟩
    rcases res with e | oc
    · rw [runCycle_cons_error hm]
      simp [performedFor]
    · rw [runCycle_cons_ok hm]
      have hih := ih l2
      have hcount : ((name, env) :: rest).map Prod.fst = name :: rest.map Prod.fst := rfl
      rw [hcount, List.count_cons]
      show performedFor tier ((name, oc) :: (runCycle target rest l2).outcomes) ≤ _
      rw [performedFor_cons]
      by_cases hn : name = tier
      · simp only [hn, beq_self_eq_true, if_true]
        split <;> omega
      · have hbn : (name == tier) = false := beq_eq_false_iff_ne.mpr hn
        rw [if_neg (fun hc => hn hc.1), hbn]
        simpa using hih

/-- Evaluation: a cycle targeting "small" over three tiers all observed
stopped, with the cooldown guard inactive at its clock reading, starts the
small tier and no-ops the others. -/
theorem runCycle_small_okStopped (τ : ℚ) (last : Option ℚ)
    (hcd : cooldown_active last τ = false) :
    runCycle "small" (okStoppedEnvs τ) last =
      ⟨none, some τ, [("small", Op.start)],
        [("small", Outcome.performed Op.start),
         ("medium", Outcome.skippedDesired),
         ("large", Outcome.skippedDesired)]⟩ := by
  have h1 : manage_instances (if "small" = "small" then Op.start else Op.stop)
      (⟨Except.ok "stopped", Except.ok (), τ, τ⟩ : TierEnv) last =
      (Except.ok (Outcome.performed Op.start), some τ, [Op.start]) := by
    rw [if_pos rfl]
    exact manage_performed _ _ _ "stopped" rfl (by simp) hcd rfl
  have h2 : manage_instances (if "medium" = "small" then Op.start else Op.stop)
      (⟨Except.ok "stopped", Except.ok (), τ, τ⟩ : TierEnv) (some τ) =
      (Except.ok Outcome.skippedDesired, some τ, []) := by
    rw [if_neg (by simp)]
    exact manage_skip_desired _ _ _ "stopped" rfl (Or.inr ⟨rfl, rfl⟩)
  have h3 : manage_instances (if "large" = "small" then Op.start else Op.stop)
      (⟨Except.ok "stopped", Except.ok (), τ, τ⟩ : TierEnv) (some τ) =
      (Except.ok Outcome.skippedDesired, some τ, []) := by
    rw [if_neg (by simp)]
    exact manage_skip_desired _ _ _ "stopped" rfl (Or.inr ⟨rfl, rfl⟩)
  rw [okStoppedEnvs, runCycle_cons_ok h1, runCycle_cons_ok h2,
    runCycle_cons_ok h3, runCycle_nil]
  rfl

/-- Claim C3: per tier, two decision cycles separated by less than the
cooldown duration perform at most one transition for that tier across both
(given each tier is configured once per cycle); and two cycles separated by
more than the cooldown duration may both perform a transition for the same
tier (here: both start "small", with clock readings 0 and 20, separation
20 > 10 = COOLDOWN_PERIOD). -/
theorem claim_C3 :
    (∀ (tier target1 target2 : String) (envs1 envs2 : List (String × TierEnv))
      (last0 : Option ℚ),
      (envs1.map Prod.fst).Nodup →
      (envs2.map Prod.fst).Nodup →
      (∀ p ∈ envs1, ∀ q ∈ envs2, q.2.tCheck - p.2.tCommit < COOLDOWN_PERIOD) →
      performedFor tier (runCycle target1 envs1 last0).outcomes +
        performedFor tier (runCycle target2 envs2
          (runCycle target1 envs1 last0).last).outcomes ≤ 1) ∧
    (performedFor "small" (runCycle "small" (okStoppedEnvs 0) none).outcomes
        = 1 ∧
      performedFor "small" (runCycle "small" (okStoppedEnvs 20)
        (runCycle "small" (okStoppedEnvs 0) none).last).outcomes = 1) := by
  constructor
  · intro tier target1 target2 envs1 envs2 last0 hn1 hn2 hsep
    rcases runCycle_last_cases target1 envs1 last0 with ⟨_, hnp⟩ | ⟨p, hp, hl⟩
    · have h1 : performedFor tier (runCycle target1 envs1 last0).outcomes = 0 :=
        performedFor_eq_zero _ _ hnp
      have h2 : performedFor tier (runCycle target2 envs2
          (runCycle target1 envs1 last0).last).outcomes ≤ 1 :=
        le_trans (performedFor_le_count tier target2 envs2 _)
          (List.nodup_iff_count_le_one.mp hn2 tier)
      omega
    · rw [hl]
      have hlock := runCycle_locked target2 p.2.tCommit envs2
        (fun q hq => hsep p hp q hq)
      have h2 : performedFor tier
          (runCycle target2 envs2 (some p.2.tCommit)).outcomes = 0 :=
        performedFor_eq_zero _ _ hlock.2.2
      have h1 : performedFor tier (runCycle target1 envs1 last0).outcomes ≤ 1 :=
        le_trans (performedFor_le_count tier target1 envs1 last0)
          (List.nodup_iff_count_le_one.mp hn1 tier)
      omega
  · have hc1 := runCycle_small_okStopped 0 none rfl
    have hc2 : cooldown_active (some (0 : ℚ)) 20 = false := by
      norm_num [cooldown_active, COOLDOWN_PERIOD]
    rw [hc1]
    rw [runCycle_small_okStopped 20 (some 0) hc2]
    constructor <;>
      norm_num [performedFor, List.filter, Outcome.isPerformed]

/-- Witness for claim C3 with two single-tier cycles whose clock readings
are 0 and 5, within one cooldown period. -/
theorem claim_C3_witness :
    performedFor "small" (runCycle "small"
        [("small", ⟨Except.ok "stopped", Except.ok (), 0, 0⟩)] none).outcomes +
      performedFor "small" (runCycle "small"
        [("small", ⟨Except.ok "stopped", Except.ok (), 5, 5⟩)]
        (runCycle "small"
          [("small", ⟨Except.ok "stopped", Except.ok (), 0, 0⟩)]
          none).last).outcomes ≤ 1 := by
  refine claim_C3.1 "small" "small" "small" _ _ none (by simp) (by simp) ?_
  intro p hp q hq
  simp only [List.mem_singleton] at hp hq
  subst hp; subst hq
  norm_num [COOLDOWN_PERIOD]

/-- Demo configuration for claim C6: the previously active "small" tier is
observed running, the target "medium" and the idle "large" are observed
stopped; clock readings 0, 1, 2 all lie inside one cooldown period. -/
def c6DemoEnvs : List (String × TierEnv) :=
  [("small", ⟨Except.ok "running", Except.ok (), 0, 0⟩),
   ("medium", ⟨Except.ok "stopped", Except.ok (), 1, 1⟩),
   ("large", ⟨Except.ok "stopped", Except.ok (), 2, 2⟩)]

/-- Claim C6: because LAST_SCALING_TIME is one global timestamp, (a) a
cycle whose clock readings all lie within one cooldown period issues at
most one actual fleet call; (b) after any performed transition every tier
still needing a transition within the cooldown period is skipped as
cooldown-active, whichever tier performed it; (c) concretely, a cycle
targeting "medium" stops the running "small" tier and then fails to start
"medium" in that same cycle, reporting it cooldown-skipped. -/
theorem claim_C6 :
    (∀ (target : String) (envs : List (String × TierEnv)) (last : Option ℚ),
      (∀ p ∈ envs, ∀ q ∈ envs, q.2.tCheck - p.2.tCommit < COOLDOWN_PERIOD) →
      (runCycle target envs last).calls.length ≤ 1) ∧
    (∀ (op : Op) (env : TierEnv) (t : ℚ) (st : String),
      env.describeRes = Except.ok st →
      ¬((op = Op.start ∧ st = "running") ∨ (op = Op.stop ∧ st = "stopped")) →
      env.tCheck - t < COOLDOWN_PERIOD →
      manage_instances op env (some t) =
        (Except.ok Outcome.skippedCooldown, some t, [])) ∧
    ((runCycle "medium" c6DemoEnvs none).calls = [("small", Op.stop)] ∧
      (runCycle "medium" c6DemoEnvs none).outcomes =
        [("small", Outcome.performed Op.stop),
         ("medium", Outcome.skippedCooldown),
         ("large", Outcome.skippedDesired)]) := by
  refine ⟨fun target envs last h => runCycle_calls_le_one target envs last h,
    fun op env t st hdr hdes hcd =>
      manage_skip_cooldown op env t st hdr hdes hcd, ?_⟩
  have h1 : manage_instances (if "small" = "medium" then Op.start else Op.stop)
      (⟨Except.ok "running", Except.ok (), 0, 0⟩ : TierEnv) none =
      (Except.ok (Outcome.performed Op.stop), some 0, [Op.stop]) := by
    rw [if_neg (by simp)]
    exact manage_performed _ _ _ "running" rfl (by simp) rfl rfl
  have h2 : manage_instances (if "medium" = "medium" then Op.start else Op.stop)
      (⟨Except.ok "stopped", Except.ok (), 1, 1⟩ : TierEnv) (some 0) =
      (Except.ok Outcome.skippedCooldown, some 0, []) := by
    rw [if_pos rfl]
    refine manage_skip_cooldown _ _ _ "stopped" rfl (by simp) ?_
    norm_num [COOLDOWN_PERIOD]
  have h3 : manage_instances (if "large" = "medium" then Op.start else Op.stop)
      (⟨Except.ok "stopped", Except.ok (), 2, 2⟩ : TierEnv) (some 0) =
      (Except.ok Outcome.skippedDesired, some 0, []) := by
    rw [if_neg (by simp)]
    exact manage_skip_desired _ _ _ "stopped" rfl (Or.inr ⟨rfl, rfl⟩)
  rw [c6DemoEnvs, runCycle_cons_ok h1, runCycle_cons_ok h2,
    runCycle_cons_ok h3, runCycle_nil]
  simp

/-- Witness for claim C6, parts with hypotheses: a single-tier cycle with
all clock readings at 0 issues at most one call, and a needed start 1
second after a transition is cooldown-skipped. -/
theorem claim_C6_witness :
    (runCycle "small"
        [("small", ⟨Except.ok "stopped", Except.ok (), 0, 0⟩)] none).calls.length
      ≤ 1 ∧
    manage_instances Op.start ⟨Except.ok "stopped", Except.ok (), 1, 1⟩
        (some 0) = (Except.ok Outcome.skippedCooldown, some 0, []) := by
  constructor
  · refine claim_C6.1 "small" _ none ?_
    intro p hp q hq
    simp only [List.mem_singleton] at hp hq
    subst hp; subst hq
    norm_num [COOLDOWN_PERIOD]
  · refine claim_C6.2.1 Op.start _ 0 "stopped" rfl (by simp) ?_
    norm_num [COOLDOWN_PERIOD]

/-- The log returned by the rate computation is exactly the pruned log. -/
theorem calculate_arrival_rate_log (now : ℚ) (log : List ℚ) :
    (calculate_arrival_rate now log).2 = prune now log := by
  unfold calculate_arrival_rate
  split <;> rfl

/-- The defaulted last element of a nonempty list is a member. -/
theorem getLastI_mem (l : List ℚ) (h : l ≠ []) : l.getLastI ∈ l := by
  rw [List.getLastI_eq_getLast?, List.getLast?_eq_getLast l h,
    Option.iget_some]
  exact List.getLast_mem h

/-- Projection: the first step of a three-event trace. -/
theorem trace3_s1 (t1 t2 t3 : ℚ) (eA eB eC : List (String × TierEnv)) :
    (trace3 t1 t2 t3 eA eB eC).1 = handle_request t1 eA [] none := rfl

/-- Projection: the second step of a three-event trace. -/
theorem trace3_s2 (t1 t2 t3 : ℚ) (eA eB eC : List (String × TierEnv)) :
    (trace3 t1 t2 t3 eA eB eC).2.1 =
      handle_request t2 eB (handle_request t1 eA [] none).log
        (handle_request t1 eA [] none).cycle.last := rfl

/-- Projection: the third step of a three-event trace. -/
theorem trace3_s3 (t1 t2 t3 : ℚ) (eA eB eC : List (String × TierEnv)) :
    (trace3 t1 t2 t3 eA eB eC).2.2 =
      handle_request t3 eC (trace3 t1 t2 t3 eA eB eC).2.1.log
        (trace3 t1 t2 t3 eA eB eC).2.1.cycle.last := rfl

/-- Projection: the rate computed by one handle_request call. -/
theorem handle_request_rate (now : ℚ) (envs : List (String × TierEnv))
    (log : List ℚ) (last : Option ℚ) :
    (handle_request now envs log last).rate =
      (calculate_arrival_rate now (log ++ [now])).1 := rfl

/-- Projection: the target chosen by one handle_request call. -/
theorem handle_request_target (now : ℚ) (envs : List (String × TierEnv))
    (log : List ℚ) (last : Option ℚ) :
    (handle_request now envs log last).target =
      choose_target_group (calculate_arrival_rate now (log ++ [now])).1 := rfl

/-- Projection: the request log left by one handle_request call. -/
theorem handle_request_log (now : ℚ) (envs : List (String × TierEnv))
    (log : List ℚ) (last : Option ℚ) :
    (handle_request now envs log last).log =
      (calculate_arrival_rate now (log ++ [now])).2 := rfl

/-- Projection: the cycle run by one handle_request call. -/
theorem handle_request_cycle (now : ℚ) (envs : List (String × TierEnv))
    (log : List ℚ) (last : Option ℚ) :
    (handle_request now envs log last).cycle =
      runCycle (choose_target_group (calculate_arrival_rate now
        (log ++ [now])).1) envs last := rfl

/-- Appending the shared timestamp to an all-equal log keeps it all-equal. -/
theorem append_const (t : ℚ) (log : List ℚ) (h : ∀ x ∈ log, x = t) :
    ∀ x ∈ log ++ [t], x = t := by
  intro x hx
  rcases List.mem_append.mp hx with hx | hx
  · exact h x hx
  · simpa using hx

/-- The pruned log of an all-equal log extended by its timestamp is
all-equal. -/
theorem log_const (t : ℚ) (log : List ℚ) (h : ∀ x ∈ log, x = t) :
    ∀ x ∈ (calculate_arrival_rate t (log ++ [t])).2, x = t := by
  rw [calculate_arrival_rate_log]
  exact fun x hx => append_const t log h x (List.mem_of_mem_filter hx)

/-- A log whose entries all carry one identical timestamp yields rate 0:
either fewer than 2 entries survive pruning, or the span is 0. -/
theorem rate_zero_of_const (t : ℚ) (log : List ℚ) (h : ∀ x ∈ log, x = t) :
    (calculate_arrival_rate t log).1 = 0 := by
  by_cases hlen : (prune t log).length < 2
  · unfold calculate_arrival_rate
    rw [if_pos hlen]
  · have hne : prune t log ≠ [] := by
      intro hnil
      rw [hnil] at hlen
      simp at hlen
    have hsub : ∀ x ∈ prune t log, x = t := fun x hx =>
      h x (List.mem_of_mem_filter hx)
    have hlast : (prune t log).getLastI = t :=
      hsub _ (getLastI_mem _ hne)
    have hhead : (prune t log).headI = t := by
      rcases hp : prune t log with _ | ⟨a, l2⟩
      · exact absurd hp hne
      · simpa using hsub a (by rw [hp]; simp)
    unfold calculate_arrival_rate
    rw [if_neg hlen, hlast, hhead]
    simp

/-- A reconciliation whose fleet calls all succeed raises no error, and
when its operation is a stop its outcome is a performed stop or a skip. -/
theorem manage_ok_no_error (op : Op) (env : TierEnv) (last : Option ℚ)
    (h : okEnv env) :
    ∃ oc l2 cs, manage_instances op env last = (Except.ok oc, l2, cs) ∧
      (op = Op.stop → stopOrSkip oc) := by
  obtain ⟨⟨s, hdr⟩, har⟩ := h
  by_cases hdes : (op = Op.start ∧ s = "running") ∨
      (op = Op.stop ∧ s = "stopped")
  · exact ⟨Outcome.skippedDesired, last, [],
      manage_skip_desired op env last s hdr hdes, fun _ => Or.inl rfl⟩
  · rcases hcd : cooldown_active last env.tCheck with _ | _
    · refine ⟨Outcome.performed op, some env.tCommit, [op],
        manage_performed op env last s hdr hdes hcd har, ?_⟩
      intro hop
      subst hop
      exact Or.inr (Or.inr rfl)
    · exact ⟨Outcome.skippedCooldown, last, [],
        manage_skip_cooldown_bool op env last s hdr hdes hcd,
        fun _ => Or.inr (Or.inl rfl)⟩

/-- Claim C10 fails on the code: three events at 0 s, 0.25 s and 0.5 s —
a burst within one second from an empty window — yield arrival rate
3 / 0.5 = 6 and target "medium", not rate 0 and target "small". -/
theorem claim_C10_counterexample :
    (trace3 0 (1/4) (1/2) (okStoppedEnvs 0) (okStoppedEnvs (1/4))
        (okStoppedEnvs (1/2))).2.2.rate = 6 ∧
    (trace3 0 (1/4) (1/2) (okStoppedEnvs 0) (okStoppedEnvs (1/4))
        (okStoppedEnvs (1/2))).2.2.rate ≠ 0 ∧
    (trace3 0 (1/4) (1/2) (okStoppedEnvs 0) (okStoppedEnvs (1/4))
        (okStoppedEnvs (1/2))).2.2.target = "medium" ∧
    (trace3 0 (1/4) (1/2) (okStoppedEnvs 0) (okStoppedEnvs (1/4))
        (okStoppedEnvs (1/2))).2.2.target ≠ "small" := by
  have hl1 : (calculate_arrival_rate 0 ([] ++ [0])).2 = [0] := by
    rw [calculate_arrival_rate_log]
    norm_num [prune, List.filter, REQUEST_LOG_WINDOW]
  have hl2 : (calculate_arrival_rate (1/4) ([0] ++ [1/4])).2 = [0, 1/4] := by
    rw [calculate_arrival_rate_log]
    norm_num [prune, List.filter, REQUEST_LOG_WINDOW]
  have hp3 : prune (1/2) ([0, 1/4] ++ [1/2]) = [0, 1/4, 1/2] := by
    norm_num [prune, List.filter, REQUEST_LOG_WINDOW]
  have hrate : (calculate_arrival_rate (1/2) ([0, 1/4] ++ [1/2])).1 = 6 := by
    unfold calculate_arrival_rate
    rw [hp3]
    norm_num [List.getLastI]
  have hstep : (trace3 0 (1/4) (1/2) (okStoppedEnvs 0) (okStoppedEnvs (1/4))
      (okStoppedEnvs (1/2))).2.2.rate = 6 := by
    rw [trace3_s3, handle_request_rate]
    simp only [trace3_s2, handle_request_log]
    rw [hl1, hl2, hrate]
  have htgt : (trace3 0 (1/4) (1/2) (okStoppedEnvs 0) (okStoppedEnvs (1/4))
      (okStoppedEnvs (1/2))).2.2.target = "medium" := by
    rw [trace3_s3, handle_request_target]
    simp only [trace3_s2, handle_request_log]
    rw [hl1, hl2, hrate]
    norm_num [choose_target_group, THRESHOLD_T1, THRESHOLD_T2, HYSTERESIS]
  refine ⟨hstep, ?_, htgt, ?_⟩
  · rw [hstep]; norm_num
  · rw [htgt]; simp

/-- Claim C10 (amended): a burst of 3 simultaneous events (identical
timestamps — the only case with zero span, as the counterexample forces)
from an empty window yields rate 0 and target "small" in every cycle, and
when the fleet calls of the final cycle succeed, each non-target tier
records a stop or no-op outcome. -/
theorem claim_C10 (t : ℚ) (eA eB : List (String × TierEnv))
    (c1 c2 c3 : TierEnv)
    (h1 : okEnv c1) (h2 : okEnv c2) (h3 : okEnv c3) :
    (trace3 t t t eA eB
      [("small", c1), ("medium", c2), ("large", c3)]).1.rate = 0 ∧
    (trace3 t t t eA eB
      [("small", c1), ("medium", c2), ("large", c3)]).1.target = "small" ∧
    (trace3 t t t eA eB
      [("small", c1), ("medium", c2), ("large", c3)]).2.1.rate = 0 ∧
    (trace3 t t t eA eB
      [("small", c1), ("medium", c2), ("large", c3)]).2.1.target = "small" ∧
    (trace3 t t t eA eB
      [("small", c1), ("medium", c2), ("large", c3)]).2.2.rate = 0 ∧
    (trace3 t t t eA eB
      [("small", c1), ("medium", c2), ("large", c3)]).2.2.target = "small" ∧
    (∃ oc, ("medium", oc) ∈ (trace3 t t t eA eB
      [("small", c1), ("medium", c2), ("large", c3)]).2.2.cycle.outcomes ∧
      stopOrSkip oc) ∧
    (∃ oc, ("large", oc) ∈ (trace3 t t t eA eB
      [("small", c1), ("medium", c2), ("large", c3)]).2.2.cycle.outcomes ∧
      stopOrSkip oc) := by
  have hsmall : choose_target_group 0 = "small" := by
    norm_num [choose_target_group, THRESHOLD_T1, HYSTERESIS]
  have hA : ∀ x ∈ (handle_request t eA [] none).log, x = t := by
    rw [handle_request_log]
    exact log_const t [] (by simp)
  have hB : ∀ x ∈ (trace3 t t t eA eB
      [("small", c1), ("medium", c2), ("large", c3)]).2.1.log, x = t := by
    rw [trace3_s2, handle_request_log]
    exact log_const t _ hA
  have hr1 : (trace3 t t t eA eB
      [("small", c1), ("medium", c2), ("large", c3)]).1.rate = 0 := by
    rw [trace3_s1, handle_request_rate]
    exact rate_zero_of_const t _ (append_const t [] (by simp))
  have ht1 : (trace3 t t t eA eB
      [("small", c1), ("medium", c2), ("large", c3)]).1.target = "small" := by
    rw [trace3_s1, handle_request_target,
      rate_zero_of_const t _ (append_const t [] (by simp))]
    exact hsmall
  have hr2 : (trace3 t t t eA eB
      [("small", c1), ("medium", c2), ("large", c3)]).2.1.rate = 0 := by
    rw [trace3_s2, handle_request_rate]
    exact rate_zero_of_const t _ (append_const t _ hA)
  have ht2 : (trace3 t t t eA eB
      [("small", c1), ("medium", c2), ("large", c3)]).2.1.target = "small" := by
    rw [trace3_s2, handle_request_target,
      rate_zero_of_const t _ (append_const t _ hA)]
    exact hsmall
  have hr3 : (trace3 t t t eA eB
      [("small", c1), ("medium", c2), ("large", c3)]).2.2.rate = 0 := by
    rw [trace3_s3, handle_request_rate]
    exact rate_zero_of_const t _ (append_const t _ hB)
  have ht3 : (trace3 t t t eA eB
      [("small", c1), ("medium", c2), ("large", c3)]).2.2.target = "small" := by
    rw [trace3_s3, handle_request_target,
      rate_zero_of_const t _ (append_const t _ hB)]
    exact hsmall
  obtain ⟨oc1, l1, cs1, hm1, _⟩ := manage_ok_no_error
    (if "small" = "small" then Op.start else Op.stop) c1
    ((trace3 t t t eA eB
      [("small", c1), ("medium", c2), ("large", c3)]).2.1.cycle.last) h1
  obtain ⟨oc2, l2, cs2, hm2, hs2⟩ := manage_ok_no_error
    (if "medium" = "small" then Op.start else Op.stop) c2 l1 h2
  obtain ⟨oc3, l3, cs3, hm3, hs3⟩ := manage_ok_no_error
    (if "large" = "small" then Op.start else Op.stop) c3 l2 h3
  have houts : (trace3 t t t eA eB
      [("small", c1), ("medium", c2), ("large", c3)]).2.2.cycle.outcomes =
      [("small", oc1), ("medium", oc2), ("large", oc3)] := by
    rw [trace3_s3, handle_request_cycle,
      rate_zero_of_const t _ (append_const t _ hB), hsmall,
      runCycle_cons_ok hm1, runCycle_cons_ok hm2, runCycle_cons_ok hm3,
      runCycle_nil]
  refine ⟨hr1, ht1, hr2, ht2, hr3, ht3, ?_, ?_⟩
  · refine ⟨oc2, ?_, hs2 (by simp)⟩
    rw [houts]
    simp
  · refine ⟨oc3, ?_, hs3 (by simp)⟩
    rw [houts]
    simp

/-- Witness for the amended claim C10: three simultaneous events at time 0
with all fleet calls succeeding. -/
theorem claim_C10_witness :
    (trace3 0 0 0 (okStoppedEnvs 0) (okStoppedEnvs 0)
      [("small", ⟨Except.ok "stopped", Except.ok (), 0, 0⟩),
       ("medium", ⟨Except.ok "stopped", Except.ok (), 0, 0⟩),
       ("large", ⟨Except.ok "stopped", Except.ok (), 0, 0⟩)]).1.rate = 0 ∧
    (trace3 0 0 0 (okStoppedEnvs 0) (okStoppedEnvs 0)
      [("small", ⟨Except.ok "stopped", Except.ok (), 0, 0⟩),
       ("medium", ⟨Except.ok "stopped", Except.ok (), 0, 0⟩),
       ("large", ⟨Except.ok "stopped", Except.ok (), 0, 0⟩)]).1.target
      = "small" ∧
    (trace3 0 0 0 (okStoppedEnvs 0) (okStoppedEnvs 0)
      [("small", ⟨Except.ok "stopped", Except.ok (), 0, 0⟩),
       ("medium", ⟨Except.ok "stopped", Except.ok (), 0, 0⟩),
       ("large", ⟨Except.ok "stopped", Except.ok (), 0, 0⟩)]).2.1.rate = 0 ∧
    (trace3 0 0 0 (okStoppedEnvs 0) (okStoppedEnvs 0)
      [("small", ⟨Except.ok "stopped", Except.ok (), 0, 0⟩),
       ("medium", ⟨Except.ok "stopped", Except.ok (), 0, 0⟩),
       ("large", ⟨Except.ok "stopped", Except.ok (), 0, 0⟩)]).2.1.target
      = "small" ∧
    (trace3 0 0 0 (okStoppedEnvs 0) (okStoppedEnvs 0)
      [("small", ⟨Except.ok "stopped", Except.ok (), 0, 0⟩),
       ("medium", ⟨Except.ok "stopped", Except.ok (), 0, 0⟩),
       ("large", ⟨Except.ok "stopped", Except.ok (), 0, 0⟩)]).2.2.rate = 0 ∧
    (trace3 0 0 0 (okStoppedEnvs 0) (okStoppedEnvs 0)
      [("small", ⟨Except.ok "stopped", Except.ok (), 0, 0⟩),
       ("medium", ⟨Except.ok "stopped", Except.ok (), 0, 0⟩),
       ("large", ⟨Except.ok "stopped", Except.ok (), 0, 0⟩)]).2.2.target
      = "small" ∧
    (∃ oc, ("medium", oc) ∈ (trace3 0 0 0 (okStoppedEnvs 0) (okStoppedEnvs 0)
      [("small", ⟨Except.ok "stopped", Except.ok (), 0, 0⟩),
       ("medium", ⟨Except.ok "stopped", Except.ok (), 0, 0⟩),
       ("large", ⟨Except.ok "stopped", Except.ok (), 0, 0⟩)]).2.2.cycle.outcomes
      ∧ stopOrSkip oc) ∧
    (∃ oc, ("large", oc) ∈ (trace3 0 0 0 (okStoppedEnvs 0) (okStoppedEnvs 0)
      [("small", ⟨Except.ok "stopped", Except.ok (), 0, 0⟩),
       ("medium", ⟨Except.ok "stopped", Except.ok (), 0, 0⟩),
       ("large", ⟨Except.ok "stopped", Except.ok (), 0, 0⟩)]).2.2.cycle.outcomes
      ∧ stopOrSkip oc) :=
  claim_C10 0 (okStoppedEnvs 0) (okStoppedEnvs 0)
    ⟨Except.ok "stopped", Except.ok (), 0, 0⟩
    ⟨Except.ok "stopped", Except.ok (), 0, 0⟩
    ⟨Except.ok "stopped", Except.ok (), 0, 0⟩
    ⟨⟨"stopped", rfl⟩, rfl⟩ ⟨⟨"stopped", rfl⟩, rfl⟩ ⟨⟨"stopped", rfl⟩, rfl⟩

end AdaptiveWorkload
